import Mathlib

/-!
Verification of the proxy-and-metrics pipeline of the LLM observability
service (`main.py`, `database.py`).

The Python source is shallowly embedded: machine integers become `Int`,
Python floats become exact rationals `ℚ`, nullable values become `Option`,
and the request-handling control flow of `proxy_chat_completions` becomes a
pure function over an environment describing the backend's behaviour.
Wall-clock instants are not modelled directly; each handler path reads the
clock once at its terminal event, so elapsed durations (in seconds) are
supplied as inputs.
-/

namespace LLMLens

/-! ### Python primitive helpers -/

/-- ASCII whitespace recognised by Python's `str.strip` / `str.split`. -/
def isPySpace (c : Char) : Bool :=
  c = ' ' || c = '\t' || c = '\n' || c = '\r' || c = '\x0b' || c = '\x0c'

/-- Truthiness of `chunk.strip()`: the string has at least one
non-whitespace character. -/
def pyHasContent (s : String) : Bool :=
  s.data.any (fun c => !(isPySpace c))

/-- Counts the tokens of `s.split()` (no separator argument): the number of
maximal runs of non-whitespace characters. -/
def countTokensAux : List Char → Bool → Nat
  | [], _ => 0
  | c :: cs, inWord =>
    if isPySpace c then countTokensAux cs false
    else (if inWord then 0 else 1) + countTokensAux cs true

/-- `len(s.split())`, Python's whitespace-token count of `s`. -/
def pySplitCount (s : String) : Nat :=
  countTokensAux s.data false

/-- Truthiness of a nullable Python string: `None` and `""` are falsy. -/
def pyTruthyStr : Option String → Bool
  | none => false
  | some s => s ≠ ""

/-- Whether `needle` is an initial segment of `hay` (character lists). -/
def startsWithChars : List Char → List Char → Bool
  | [], _ => true
  | _ :: _, [] => false
  | a :: as, b :: bs => a = b && startsWithChars as bs

/-- Whether `needle` occurs somewhere in `hay` (character lists). -/
def hasSubstrChars (needle : List Char) : List Char → Bool
  | [] => needle.isEmpty
  | l => startsWithChars needle l ||
      (match l with
       | [] => false
       | _ :: rest => hasSubstrChars needle rest)

/-- Python's `needle in hay` on strings. -/
def pyContains (hay needle : String) : Bool :=
  hasSubstrChars needle.data hay.data

/-- ASCII lower-casing of a character, as done by `str.lower` on ASCII. -/
def charLowerAscii (c : Char) : Char :=
  if 'A' ≤ c && c ≤ 'Z' then Char.ofNat (c.toNat + 32) else c

/-- `s.lower()` restricted to ASCII input. -/
def pyLower (s : String) : String :=
  String.mk (s.data.map charLowerAscii)

/-- Kernel-computable floor on `ℚ` (agrees with `⌊·⌋`, see `ratFloor_eq`). -/
def ratFloor (q : ℚ) : Int :=
  q.floor

/-- Kernel-computable `max` on `ℚ`, Python's `max` of two numbers. -/
def ratMax (a b : ℚ) : ℚ :=
  if a ≤ b then b else a

/-- Kernel-computable `min` on `ℚ`, Python's `min` of two numbers. -/
def ratMin (a b : ℚ) : ℚ :=
  if a ≤ b then a else b

/-- Python's `int()` applied to a float: truncation toward zero. -/
def pyInt (q : ℚ) : Int :=
  if 0 ≤ q then ratFloor q else -ratFloor (-q)

/-- Python's `round(x, 2)` on exact rationals: round to two decimal places,
ties to even (banker's rounding). -/
def pyRound2 (q : ℚ) : ℚ :=
  let s := q * 100
  let f : Int := ratFloor s
  let frac := s - (f : ℚ)
  if frac < 1 / 2 then (f : ℚ) / 100
  else if 1 / 2 < frac then ((f : ℚ) + 1) / 100
  else if f % 2 = 0 then (f : ℚ) / 100 else ((f : ℚ) + 1) / 100

theorem ratFloor_eq (q : ℚ) : ratFloor q = ⌊q⌋ := by
  rw [ratFloor, Rat.floor_def' q, Rat.floor_def]

theorem ratMax_eq (a b : ℚ) : ratMax a b = max a b := by
  simp [ratMax, max_def]

theorem ratMin_eq (a b : ℚ) : ratMin a b = min a b := by
  simp [ratMin, min_def]

/-- Python's `str()` of a float whose value is integral renders one trailing
`.0` digit; the non-integral fallback here is unused by the theorems below. -/
def pyFloatRepr (q : ℚ) : String :=
  if q.den = 1 then toString q.num ++ ".0" else toString q.num ++ "/" ++ toString q.den

/-- `" ".join l`. -/
def joinWithSpace : List String → String
  | [] => ""
  | [s] => s
  | s :: rest => s ++ " " ++ joinWithSpace rest

/-! ### Metrics Calculator (`calculate_performance_score`, main.py 58-70) -/

/-- `calculate_performance_score` from `main.py`: 0 on error, otherwise the
rounded weighted blend of a latency component and a throughput component.
The source's `(tokens_per_second or 0)` is the identity on numeric input and
is dropped. -/
def calculate_performance_score (latency_ms : Int) (tokens_per_second : ℚ)
    (error_occurred : Bool) : ℚ :=
  if error_occurred then 0
  else
    let latency_score : ℚ := ratMax 0 (100 - (latency_ms : ℚ) / 20)
    let throughput_score : ℚ := ratMin 100 (tokens_per_second * 5)
    pyRound2 (latency_score * 0.6 + throughput_score * 0.4)

/-- The specification's scoring formula, written from the spec's words:
`round(0.6 * max(0, 100 - latency_ms/20) + 0.4 * min(100, tps * 5), 2)`,
forced to 0 by the error flag. -/
def specPerformanceScore (latency_ms : Int) (tps : ℚ) (error_occurred : Bool) : ℚ :=
  if error_occurred then 0
  else pyRound2 (0.6 * ratMax 0 (100 - (latency_ms : ℚ) / 20) + 0.4 * ratMin 100 (tps * 5))

/-- C1: for every latency_ms ≥ 0, tokens_per_second ≥ 0 and error flag, the
performance score function returns 0 when the error flag is true and
otherwise the spec's rounded formula; in particular latency 0 with tps 20
gives 100.00, latency 2000 with tps 0 gives 0.00, and latency 1000 with
tps 10 gives 50.00. -/
theorem claim1_performance_score :
    (∀ (l : Int) (t : ℚ) (e : Bool), 0 ≤ l → 0 ≤ t →
      calculate_performance_score l t e = specPerformanceScore l t e) ∧
    (∀ (l : Int) (t : ℚ), calculate_performance_score l t true = 0) ∧
    calculate_performance_score 0 20 false = 100 ∧
    calculate_performance_score 2000 0 false = 0 ∧
    calculate_performance_score 1000 10 false = 50 := by
  refine ⟨?_, ?_, ?_, ?_, ?_⟩
  · intro l t e _ _
    cases e with
    | true => rfl
    | false =>
      show pyRound2 _ = pyRound2 _
      congr 1
      ring
  · intro l t
    rfl
  · norm_num [calculate_performance_score, pyRound2, ratFloor_eq, ratMax, ratMin]
  · norm_num [calculate_performance_score, pyRound2, ratFloor_eq, ratMax, ratMin]
  · norm_num [calculate_performance_score, pyRound2, ratFloor_eq, ratMax, ratMin]

/-- Witness for C1 at latency 3, tps 7. -/
theorem claim1_witness :
    calculate_performance_score 3 7 false = specPerformanceScore 3 7 false :=
  claim1_performance_score.1 3 7 false (by decide) (by decide)

/-! ### Data model (`database.py`)

`LLMRequestLog` is the RequestRecord. The wall-clock `start_time`/`end_time`
columns and the free-form `request_metadata` JSON column are not modelled;
durations derived from the clock are passed in explicitly. -/

structure LogEntry where
  modelName : String
  latencyMs : Int
  promptTokens : Option Int
  completionTokens : Option Int
  totalTokens : Option Int
  inputText : String
  outputText : String
  errorMessage : Option String
  isStreaming : Bool
  timeToFirstTokenMs : Option Int
  tokensPerSecond : Option ℚ
  temperature : Option ℚ
  maxTokens : Option Int
  performanceScore : ℚ
deriving DecidableEq

structure AlertRule where
  id : Int
  name : String
  metric : String
  threshold : ℚ
  operator : String
  isActive : Bool
deriving DecidableEq

structure AlertEvent where
  ruleId : Int
  ruleName : String
  metricValue : ℚ
  threshold : ℚ
  message : String
deriving DecidableEq

/-! ### Alert Evaluator (`check_alert_rules`, main.py 72-109)

The database is abstracted as `history`, the full list of persisted records
in recency order (most recent first); the evaluator's query
`order_by(desc(start_time)).limit(10)` is `history.take 10`.
Python renders the float `metric_value` and `threshold` into the event
message; that rendering is passed in as `render`. -/

/-- The `error_rate` metric value (main.py 86-92): percentage of the at most
10 most recent records whose `error_message` is truthy, `0.0` when there is
no history at all. -/
def errorRateValue (history : List LogEntry) : ℚ :=
  let recent := history.take 10
  if recent.isEmpty then 0
  else ((recent.filter (fun log => pyTruthyStr log.errorMessage)).length : ℚ) /
        (recent.length : ℚ) * 100

/-- Metric resolution of `check_alert_rules`: `latency` and
`tokens_per_second` read the fresh record (`or 0` turns a null
tokens-per-second into 0), `error_rate` reads the recent window, any other
metric name leaves `metric_value = None`. -/
def resolveMetric (metric : String) (entry : LogEntry) (history : List LogEntry) :
    Option ℚ :=
  if metric = "latency" then some ((entry.latencyMs : ℚ))
  else if metric = "tokens_per_second" then some (entry.tokensPerSecond.getD 0)
  else if metric = "error_rate" then some (errorRateValue history)
  else none

/-- The comparison of `check_alert_rules` (main.py 94-100): `gt` strictly
greater, `lt` strictly less, `eq` equal, anything else never triggers. -/
def opTriggers (operator : String) (value threshold : ℚ) : Bool :=
  if operator = "gt" then value > threshold
  else if operator = "lt" then value < threshold
  else if operator = "eq" then value = threshold
  else false

/-- The event message f-string of main.py 107. -/
def alertMessage (render : ℚ → String) (ruleName metric : String) (value : ℚ)
    (operator : String) (threshold : ℚ) : String :=
  ruleName ++ ": " ++ metric ++ " (" ++ render value ++ ") " ++ operator ++ " " ++
    render threshold

/-- One iteration of the rule loop of `check_alert_rules`: the `AlertEvent`
added for `rule`, if any. -/
def evalRule (render : ℚ → String) (entry : LogEntry) (history : List LogEntry)
    (rule : AlertRule) : Option AlertEvent :=
  match resolveMetric rule.metric entry history with
  | none => none
  | some v =>
    if opTriggers rule.operator v rule.threshold then
      some { ruleId := rule.id, ruleName := rule.name, metricValue := v,
             threshold := rule.threshold,
             message := alertMessage render rule.name rule.metric v rule.operator
               rule.threshold }
    else none

/-- `check_alert_rules`: the events added for one fresh record, given all
rules in query order (the source filters on `is_active`). -/
def check_alert_rules (render : ℚ → String) (rules : List AlertRule)
    (entry : LogEntry) (history : List LogEntry) : List AlertEvent :=
  (rules.filter (fun r => r.isActive)).filterMap (evalRule render entry history)

/-- A record with every nullable field null, used as a base for concrete
test fixtures. -/
def blankEntry : LogEntry :=
  { modelName := "m", latencyMs := 0, promptTokens := none,
    completionTokens := none, totalTokens := none, inputText := "",
    outputText := "", errorMessage := none, isStreaming := false,
    timeToFirstTokenMs := none, tokensPerSecond := none, temperature := none,
    maxTokens := none, performanceScore := 0 }

/-! ### C7: the error-rate metric -/

/-- The claim's error-rate formula, written from the claim's words: the
percentage of the recent-window records carrying a NON-NULL error message,
over the available count, 0 on empty history. -/
def claimedErrorRate (history : List LogEntry) : ℚ :=
  let window := history.take 10
  if window.isEmpty then 0
  else 100 * ((window.filter (fun log => log.errorMessage ≠ none)).length : ℚ) /
        (window.length : ℚ)

/-- The amended error-rate formula: as the claim, except that a record
counts as erroring only when its error message is non-empty (Python
truthiness), not merely non-null. -/
def amendedErrorRate (history : List LogEntry) : ℚ :=
  let window := history.take 10
  if window.isEmpty then 0
  else 100 * ((window.filter (fun log => pyTruthyStr log.errorMessage)).length : ℚ) /
        (window.length : ℚ)

/-- A record whose error message is present but empty. -/
def emptyErrEntry : LogEntry :=
  { blankEntry with errorMessage := some "" }

/-- C7 counterexample: on a history holding one record whose error message
is the empty string (non-null), the code resolves the error-rate metric to
0, while the claim's non-null count gives 100. -/
theorem claim7_counterexample :
    resolveMetric "error_rate" emptyErrEntry [emptyErrEntry] = some 0 ∧
    claimedErrorRate [emptyErrEntry] = 100 ∧ (0 : ℚ) ≠ 100 := by
  refine ⟨?_, ?_, by norm_num⟩
  · simp +decide [resolveMetric, errorRateValue, pyTruthyStr, emptyErrEntry, blankEntry]
  · simp +decide [claimedErrorRate, emptyErrEntry, blankEntry]

/-- C7 (amended): the resolved `error_rate` value is the percentage of the
at most 10 most recent records carrying a non-empty (truthy) error message,
computed over the available count — never a fixed denominator of 10 — and 0
when history is empty. -/
theorem claim7_error_rate (entry : LogEntry) (history : List LogEntry) :
    resolveMetric "error_rate" entry history = some (amendedErrorRate history) ∧
    amendedErrorRate [] = 0 := by
  constructor
  · simp only [resolveMetric]
    rw [if_neg (by decide), if_neg (by decide)]
    simp only [if_pos trivial, reduceIte, Option.some.injEq]
    simp only [errorRateValue, amendedErrorRate]
    by_cases hw : (history.take 10).isEmpty
    · rw [if_pos hw, if_pos hw]
    · rw [if_neg hw, if_neg hw, div_mul_eq_mul_div, mul_comm]
  · rfl

/-! ### C8: the alert event message format -/

/-- The claim's message template, with a space on both sides of the colon:
rule, " : ", metric, " (", value, ") ", operator, " ", threshold. -/
def specClaimMessage (rule metric value operator threshold : String) : String :=
  rule ++ " : " ++ metric ++ " (" ++ value ++ ") " ++ operator ++ " " ++ threshold

def rule8 : AlertRule :=
  { id := 1, name := "High Latency Alert", metric := "latency",
    threshold := 5000, operator := "gt", isActive := true }

def entry8 : LogEntry :=
  { blankEntry with latencyMs := 6000 }

/-- C8 counterexample: for a triggering latency rule the code formats the
message with no space before the colon, so it differs from the claim's
template, which puts a space on both sides of the colon. -/
theorem claim8_counterexample :
    (check_alert_rules pyFloatRepr [rule8] entry8 []).map AlertEvent.message =
      ["High Latency Alert: latency (6000.0) gt 5000.0"] ∧
    "High Latency Alert: latency (6000.0) gt 5000.0" ≠
      specClaimMessage "High Latency Alert" "latency" "6000.0" "gt" "5000.0" := by
  constructor
  · simp +decide [check_alert_rules, evalRule, resolveMetric, opTriggers,
      alertMessage, pyFloatRepr, rule8, entry8, blankEntry]
  · decide

/-- C8 (amended): whenever an active rule's comparison matches (gt strictly
greater, lt strictly less, eq equal), exactly one AlertEvent is created,
snapshotting the rule and the resolved value, with message
rule name, ": ", metric, " (", value, ") ", operator, " ", threshold —
no space before the colon. -/
theorem claim8_alert_event (render : ℚ → String) (rule : AlertRule)
    (entry : LogEntry) (history : List LogEntry) (v : ℚ)
    (hact : rule.isActive = true)
    (hres : resolveMetric rule.metric entry history = some v)
    (htrig : opTriggers rule.operator v rule.threshold = true) :
    check_alert_rules render [rule] entry history =
      [{ ruleId := rule.id, ruleName := rule.name, metricValue := v,
         threshold := rule.threshold,
         message := rule.name ++ ": " ++ rule.metric ++ " (" ++ render v ++ ") " ++
           rule.operator ++ " " ++ render rule.threshold }] := by
  simp [check_alert_rules, hact, evalRule, hres, htrig, alertMessage]

/-- Witness for C8 (amended): the latency rule at threshold 5000 fires on a
record with latency 6000. -/
theorem claim8_witness :
    check_alert_rules pyFloatRepr [rule8] entry8 [] =
      [{ ruleId := rule8.id, ruleName := rule8.name, metricValue := 6000,
         threshold := rule8.threshold,
         message := rule8.name ++ ": " ++ rule8.metric ++ " (" ++ pyFloatRepr 6000 ++
           ") " ++ rule8.operator ++ " " ++ pyFloatRepr rule8.threshold }] :=
  claim8_alert_event pyFloatRepr rule8 entry8 [] 6000 rfl (by decide) (by decide)

/-! ### C10: unrecognized metrics and operators -/

/-- C10: an active rule whose metric is none of latency, tokens_per_second,
error_rate, or whose operator is none of gt, lt, eq, never creates an
AlertEvent: the metric value stays unresolved or the comparison never
triggers. -/
theorem claim10_unrecognized (render : ℚ → String) (entry : LogEntry)
    (history : List LogEntry) (rule : AlertRule)
    (h : rule.metric ∉ (["latency", "tokens_per_second", "error_rate"] : List String) ∨
         rule.operator ∉ (["gt", "lt", "eq"] : List String)) :
    evalRule render entry history rule = none ∧
    check_alert_rules render [rule] entry history = [] := by
  have hev : evalRule render entry history rule = none := by
    rcases h with h | h
    · simp only [List.mem_cons, List.not_mem_nil, or_false, not_or] at h
      obtain ⟨h1, h2, h3⟩ := h
      simp [evalRule, resolveMetric, h1, h2, h3]
    · simp only [List.mem_cons, List.not_mem_nil, or_false, not_or] at h
      obtain ⟨h1, h2, h3⟩ := h
      unfold evalRule
      cases hres : resolveMetric rule.metric entry history with
      | none => rfl
      | some v => simp [opTriggers, h1, h2, h3]
  refine ⟨hev, ?_⟩
  by_cases ha : rule.isActive = true <;>
    simp [check_alert_rules, ha, hev, List.filterMap]

/-- Witness for C10 at a rule with the unrecognized metric `throughput`. -/
theorem claim10_witness :
    evalRule pyFloatRepr blankEntry []
      { id := 2, name := "r", metric := "throughput", threshold := 1,
        operator := "gt", isActive := true } = none ∧
    check_alert_rules pyFloatRepr
      [{ id := 2, name := "r", metric := "throughput", threshold := 1,
         operator := "gt", isActive := true }] blankEntry [] = [] :=
  claim10_unrecognized pyFloatRepr blankEntry [] _ (Or.inl (by decide))

/-! ### Inbound request model (`proxy_chat_completions`, main.py 206-235) -/

structure Message where
  role : String
  content : String
deriving DecidableEq

/-- The parsed JSON request body. `model` is `None` when the key is absent
(`request_body.get("model", "unknown")` then falls back); the five sampling
parameters are the `metadata` dict of main.py 215-221. -/
structure RequestBody where
  model : Option String
  messages : List Message
  stream : Bool
  temperature : Option ℚ
  maxTokens : Option Int
  topP : Option ℚ
  frequencyPenalty : Option ℚ
  presencePenalty : Option ℚ
deriving DecidableEq

/-- `input_text` (main.py 213): the space-joined contents of the messages
with role `user`. -/
def userInputText (msgs : List Message) : String :=
  joinWithSpace ((msgs.filter (fun m => m.role = "user")).map (fun m => m.content))

/-- `prompt_tokens` estimate (main.py 224): summed whitespace-token counts
of every message content, regardless of role. -/
def promptTokenEstimate (msgs : List Message) : Nat :=
  ((msgs.map (fun m => pySplitCount m.content)).sum)

/-! ### Backend selection and payload translation (main.py 240-266) -/

/-- The URL test of main.py 240 and 258: the literal `localhost:11434`
occurs in the URL, or `ollama` occurs in its lower-casing. -/
def usesOllamaShape (url : String) : Bool :=
  pyContains url "localhost:11434" || pyContains (pyLower url) "ollama"

/-- The outbound payload: either the translated native-chat (Ollama) shape
holding exactly model, messages and the stream flag, or the untouched
OpenAI-compatible pass-through of the original body. -/
inductive OutboundPayload where
  | native (model : String) (messages : List Message) (stream : Bool)
  | passthrough (body : RequestBody)
deriving DecidableEq

/-- Payload construction: the Ollama branch builds
`(model, messages, stream)` and nothing else; otherwise the request body is
forwarded unchanged. -/
def outboundPayload (url : String) (body : RequestBody) (streamFlag : Bool) :
    OutboundPayload :=
  if usesOllamaShape url then
    .native (body.model.getD "unknown") body.messages streamFlag
  else .passthrough body

/-- The `temperature` carried by an outbound payload, if any. -/
def payloadTemperature : OutboundPayload → Option ℚ
  | .native _ _ _ => none
  | .passthrough b => b.temperature

/-- The `max_tokens` carried by an outbound payload, if any. -/
def payloadMaxTokens : OutboundPayload → Option Int
  | .native _ _ _ => none
  | .passthrough b => b.maxTokens

/-- The `top_p` carried by an outbound payload, if any. -/
def payloadTopP : OutboundPayload → Option ℚ
  | .native _ _ _ => none
  | .passthrough b => b.topP

/-- The `frequency_penalty` carried by an outbound payload, if any. -/
def payloadFrequencyPenalty : OutboundPayload → Option ℚ
  | .native _ _ _ => none
  | .passthrough b => b.frequencyPenalty

/-- The `presence_penalty` carried by an outbound payload, if any. -/
def payloadPresencePenalty : OutboundPayload → Option ℚ
  | .native _ _ _ => none
  | .passthrough b => b.presencePenalty

/-! ### Stream Capture Relay (`stream_llm_response`, main.py 111-197) -/

/-- The fields of `log_start_info` that the relay reads. -/
structure StreamInfo where
  modelName : String
  inputText : String
  temperature : Option ℚ
  maxTokens : Option Int
  promptTokens : Int
deriving DecidableEq

/-- The terminal diagnostic chunk of main.py 137,
`data: {json.dumps({'error': str(e)})}\n\n` (JSON string escaping elided:
the claims never inspect this text). -/
def pyJsonErrorChunk (err : String) : String :=
  "data: \x7b\"error\": \"" ++ err ++ "\"\x7d\n\n"

structure StreamResult where
  yielded : List String
  record : LogEntry
deriving DecidableEq

/-- `stream_llm_response`. `chunks` are the texts produced by
`response.aiter_text()` before the stream ends or errors; `failure` is the
exception message when the backend errors (including a non-success status
before any chunk). `durSec` is the elapsed seconds from `start_time` to the
terminal event, `ttftSec` to the first contentful chunk. Only chunks whose
`strip()` is truthy are forwarded, accumulated and counted; on failure the
record is marked erroring with empty output and zero score, on success it
carries the accumulated text and the estimated throughput. -/
def stream_llm_response (info : StreamInfo) (chunks : List String)
    (failure : Option String) (durSec ttftSec : ℚ) : StreamResult :=
  let fwd := chunks.filter pyHasContent
  let latency := pyInt (durSec * 1000)
  match failure with
  | some err =>
    { yielded := fwd ++ [pyJsonErrorChunk err],
      record :=
        { modelName := info.modelName, latencyMs := latency,
          promptTokens := none, completionTokens := none, totalTokens := none,
          inputText := info.inputText, outputText := "",
          errorMessage := some err, isStreaming := true,
          timeToFirstTokenMs := none, tokensPerSecond := none,
          temperature := none, maxTokens := none,
          performanceScore := calculate_performance_score latency 0 true } }
  | none =>
    let tokens : Int := ((fwd.map pySplitCount).sum : Nat)
    let tps : ℚ := if 0 < durSec then (tokens : ℚ) / durSec else 0
    { yielded := fwd,
      record :=
        { modelName := info.modelName, latencyMs := latency,
          promptTokens := none, completionTokens := some tokens,
          totalTokens := some (tokens + info.promptTokens),
          inputText := info.inputText, outputText := String.join fwd,
          errorMessage := none, isStreaming := true,
          timeToFirstTokenMs :=
            if fwd.isEmpty then none else some (pyInt (ttftSec * 1000)),
          tokensPerSecond := some tps,
          temperature := info.temperature, maxTokens := info.maxTokens,
          performanceScore := calculate_performance_score latency tps false } }

/-! ### Non-streaming response handling (main.py 256-321) -/

structure Choice where
  messageContent : Option String
deriving DecidableEq

/-- The `usage` object of the backend response; a field is `none` when the
key is absent. -/
structure Usage where
  promptTokens : Option Int
  completionTokens : Option Int
  totalTokens : Option Int
deriving DecidableEq

/-- The parsed non-streaming backend response body. -/
structure ResponseData where
  choices : List Choice
  usage : Option Usage
deriving DecidableEq

/-- `output_text` extraction (main.py 280-283): the content of the first
choice's message, else the empty string. -/
def responseOutputText (rd : ResponseData) : String :=
  match rd.choices with
  | [] => ""
  | c :: _ => c.messageContent.getD ""

/-- The record persisted by the non-streaming success path
(main.py 271-312): prompt tokens fall back to the whitespace estimate when
the backend omits them, completion/total tokens come only from `usage`, and
throughput divides `(completion_tokens or 0)` by the elapsed seconds. -/
def nonStreamingSuccessRecord (body : RequestBody) (rd : ResponseData)
    (durSec : ℚ) : LogEntry :=
  let latency := pyInt (durSec * 1000)
  let est : Int := (promptTokenEstimate body.messages : Nat)
  let promptToks : Int :=
    match rd.usage with
    | none => est
    | some u => u.promptTokens.getD est
  let completionToks : Option Int :=
    match rd.usage with
    | none => none
    | some u => u.completionTokens
  let totalToks : Option Int :=
    match rd.usage with
    | none => none
    | some u => u.totalTokens
  let tps : ℚ := if 0 < durSec then ((completionToks.getD 0 : Int) : ℚ) / durSec else 0
  { modelName := body.model.getD "unknown", latencyMs := latency,
    promptTokens := some promptToks, completionTokens := completionToks,
    totalTokens := totalToks, inputText := userInputText body.messages,
    outputText := responseOutputText rd, errorMessage := none,
    isStreaming := false, timeToFirstTokenMs := none,
    tokensPerSecond := some tps, temperature := body.temperature,
    maxTokens := body.maxTokens,
    performanceScore := calculate_performance_score latency tps false }

/-- The record persisted by the non-streaming error handler
(main.py 329-340). -/
def nonStreamingErrorRecord (body : RequestBody) (errMsg : String)
    (durSec : ℚ) : LogEntry :=
  let latency := pyInt (durSec * 1000)
  { modelName := body.model.getD "unknown", latencyMs := latency,
    promptTokens := none, completionTokens := none, totalTokens := none,
    inputText := userInputText body.messages, outputText := "",
    errorMessage := some errMsg, isStreaming := false,
    timeToFirstTokenMs := none, tokensPerSecond := none, temperature := none,
    maxTokens := none,
    performanceScore := calculate_performance_score latency 0 true }

/-- The best-effort record persisted by the outer unexpected-error handler
(main.py 364-373): model `unknown`, empty texts, literal score 0.0, and the
`is_streaming` column left to its default `False`. -/
def outerFallbackRecord (errText : String) (durSec : ℚ) : LogEntry :=
  let latency := pyInt (durSec * 1000)
  { modelName := "unknown", latencyMs := latency,
    promptTokens := none, completionTokens := none, totalTokens := none,
    inputText := "", outputText := "",
    errorMessage := some ("Unexpected error: " ++ errText),
    isStreaming := false, timeToFirstTokenMs := none, tokensPerSecond := none,
    temperature := none, maxTokens := none, performanceScore := 0 }

/-! ### Proxy Gateway control flow (`proxy_chat_completions`, main.py 199-379)

The handler body is one outer `try` whose `except` clauses are
`json.JSONDecodeError` (reject, no record) and `Exception` (best-effort
record, no alert pass). The non-streaming branch has its own inner
`try/except Exception`; the `HTTPException` that the inner handler re-raises
is itself an `Exception`, so the outer handler catches it and persists a
second record before replying 500. -/

/-- The outcome of `await request.json()` plus the body processing of
main.py 207-224: a `json.JSONDecodeError`, some other exception (for
example a non-dict element of `messages` failing `msg.get`), or a parsed
body. -/
inductive ParseOutcome where
  | malformed
  | unexpected (msg : String)
  | ok (body : RequestBody)
deriving DecidableEq

/-- The outcome of the synchronous backend call of main.py 257-269:
a parsed success body, an `httpx.RequestError`, an `httpx.HTTPStatusError`
(from `raise_for_status`), or any other exception (for example an
unparseable backend body). The payload is `str(e)`. -/
inductive BackendOutcome where
  | success (rd : ResponseData)
  | connectionError (msg : String)
  | httpStatusError (status : Nat) (msg : String)
  | otherError (msg : String)
deriving DecidableEq

/-- What the caller receives. -/
inductive ProxyResponse where
  | streamingBody (chunks : List String)
  | jsonBody (rd : ResponseData)
  | httpError (status : Nat) (detail : String)
deriving DecidableEq

/-- One record persistence, tagged with whether `check_alert_rules` was run
on that record before the request completed. -/
structure Persist where
  entry : LogEntry
  alertChecked : Bool
deriving DecidableEq

structure ProxyResult where
  persists : List Persist
  response : ProxyResponse
deriving DecidableEq

/-- Everything the environment decides about one request: the parse
outcome, the backend behaviour for whichever branch runs, the elapsed
seconds read at each terminal event (`durSec` at the handler's own terminal
event, `outerDurSec` at the outer handler's later one, `ttftSec` at the
first contentful chunk), and `httpExcText`, Python's `str()` of the
`HTTPException` re-raised by the inner non-streaming handler. -/
structure ProxyEnv where
  llmUrl : String
  parse : ParseOutcome
  backend : BackendOutcome
  streamChunks : List String
  streamFailure : Option String
  durSec : ℚ
  ttftSec : ℚ
  outerDurSec : ℚ
  httpExcText : String
deriving DecidableEq

/-- The non-streaming failure paths: the inner `except` block persists an
erroring record and runs the alert pass (main.py 329-346), then re-raises an
`HTTPException`, which the outer `except Exception` catches (main.py 357),
persisting a second best-effort record with no alert pass and replying 500. -/
def innerThenOuter (body : RequestBody) (msg : String) (env : ProxyEnv) :
    ProxyResult :=
  { persists :=
      [{ entry := nonStreamingErrorRecord body msg env.durSec, alertChecked := true },
       { entry := outerFallbackRecord env.httpExcText env.outerDurSec,
         alertChecked := false }],
    response := .httpError 500 ("Unexpected error: " ++ env.httpExcText) }

/-- `proxy_chat_completions` as a function of the environment: the records
it persists (in order, tagged with the alert pass) and the response. The
streaming generator is modelled as running to its terminal event. -/
def proxy_chat_completions (env : ProxyEnv) : ProxyResult :=
  match env.parse with
  | .malformed =>
    { persists := [], response := .httpError 400 "Invalid JSON in request body" }
  | .unexpected msg =>
    { persists := [{ entry := outerFallbackRecord msg env.outerDurSec,
                     alertChecked := false }],
      response := .httpError 500 ("Unexpected error: " ++ msg) }
  | .ok body =>
    let info : StreamInfo :=
      { modelName := body.model.getD "unknown",
        inputText := userInputText body.messages,
        temperature := body.temperature, maxTokens := body.maxTokens,
        promptTokens := (promptTokenEstimate body.messages : Nat) }
    if body.stream then
      let sr := stream_llm_response info env.streamChunks env.streamFailure
        env.durSec env.ttftSec
      { persists := [{ entry := sr.record, alertChecked := true }],
        response := .streamingBody sr.yielded }
    else
      match env.backend with
      | .success rd =>
        { persists := [{ entry := nonStreamingSuccessRecord body rd env.durSec,
                         alertChecked := true }],
          response := .jsonBody rd }
      | .connectionError msg => innerThenOuter body msg env
      | .httpStatusError _ msg => innerThenOuter body msg env
      | .otherError msg => innerThenOuter body msg env

/-- Every record the handler persists with a non-null error message has
performance score 0 and empty output text, on every path. -/
theorem errorRecordsInvariant (env : ProxyEnv) :
    ∀ p ∈ (proxy_chat_completions env).persists,
      p.entry.errorMessage ≠ none →
        p.entry.performanceScore = 0 ∧ p.entry.outputText = "" := by
  intro p hp herr
  unfold proxy_chat_completions at hp
  cases henv : env.parse with
  | malformed => rw [henv] at hp; simp at hp
  | unexpected msg =>
    rw [henv] at hp; simp at hp
    subst hp
    simp [outerFallbackRecord]
  | ok body =>
    rw [henv] at hp
    by_cases hs : body.stream
    · simp only [hs, if_true] at hp
      simp at hp
      subst hp
      cases hf : env.streamFailure with
      | some err =>
        simp [stream_llm_response, hf, calculate_performance_score]
      | none =>
        exact absurd (by simp [stream_llm_response, hf]) herr
    · simp only [hs, if_false, Bool.false_eq_true] at hp
      cases hb : env.backend with
      | success rd =>
        rw [hb] at hp; simp at hp; subst hp
        exact absurd (by simp [nonStreamingSuccessRecord]) herr
      | connectionError msg =>
        rw [hb] at hp
        simp [innerThenOuter] at hp
        rcases hp with hp | hp <;> subst hp <;>
          simp [nonStreamingErrorRecord, outerFallbackRecord,
            calculate_performance_score]
      | httpStatusError st msg =>
        rw [hb] at hp
        simp [innerThenOuter] at hp
        rcases hp with hp | hp <;> subst hp <;>
          simp [nonStreamingErrorRecord, outerFallbackRecord,
            calculate_performance_score]
      | otherError msg =>
        rw [hb] at hp
        simp [innerThenOuter] at hp
        rcases hp with hp | hp <;> subst hp <;>
          simp [nonStreamingErrorRecord, outerFallbackRecord,
            calculate_performance_score]

/-- A request body for the failure fixtures. -/
def body2 : RequestBody :=
  { model := some "llama3", messages := [{ role := "user", content := "hi" }],
    stream := false, temperature := none, maxTokens := none, topP := none,
    frequencyPenalty := none, presencePenalty := none }

/-- A non-streaming request whose backend connection fails. -/
def env2 : ProxyEnv :=
  { llmUrl := "http://localhost:1234/v1/chat/completions", parse := .ok body2,
    backend := .connectionError "boom", streamChunks := [],
    streamFailure := none, durSec := 1, ttftSec := 0, outerDurSec := 2,
    httpExcText := "503: Connection error to local LLM: boom" }

/-- A request whose body parses as JSON but whose processing raises outside
the inner handler (for example a non-dict element of `messages`). -/
def envOuter : ProxyEnv :=
  { llmUrl := "http://localhost:1234/v1/chat/completions",
    parse := .unexpected "'int' object has no attribute 'get'",
    backend := .success { choices := [], usage := none }, streamChunks := [],
    streamFailure := none, durSec := 0, ttftSec := 0, outerDurSec := 1,
    httpExcText := "" }

/-- C2 counterexample: a failed proxied call (an unexpected error caught by
the outer handler) persists exactly one record, which carries an error
message, yet the Alert Evaluator is never run on it. -/
theorem claim2_counterexample :
    ((proxy_chat_completions envOuter).persists.map
      (fun p => (p.entry.errorMessage.isSome, p.alertChecked))) =
      [(true, false)] := by
  simp [proxy_chat_completions, envOuter, outerFallbackRecord]

/-- C2 (amended): every record persisted for a failed call has performance
score 0, and the streaming and non-streaming handler paths run the Alert
Evaluator on their record, but a best-effort outer-fallback record — the one
persisted by the outer unexpected-error handler, which also catches the
HTTPException re-raised by the non-streaming error handler and thereby adds
a second record for the same call — is persisted without an alert pass. -/
theorem claim2_failure_persistence (env : ProxyEnv) :
    (∀ p ∈ (proxy_chat_completions env).persists,
        p.entry.errorMessage ≠ none → p.entry.performanceScore = 0) ∧
    (∀ p ∈ (proxy_chat_completions env).persists,
        p.alertChecked = false → ∃ s d, p.entry = outerFallbackRecord s d) := by
  constructor
  · intro p hp herr
    exact (errorRecordsInvariant env p hp herr).1
  · intro p hp hac
    unfold proxy_chat_completions at hp
    cases henv : env.parse with
    | malformed => rw [henv] at hp; simp at hp
    | unexpected msg =>
      rw [henv] at hp; simp at hp
      exact ⟨msg, env.outerDurSec, by rw [hp]⟩
    | ok body =>
      rw [henv] at hp
      by_cases hs : body.stream
      · simp only [hs, if_true] at hp
        simp at hp
        rw [hp] at hac
        simp at hac
      · simp only [hs, if_false, Bool.false_eq_true] at hp
        cases hb : env.backend with
        | success rd =>
          rw [hb] at hp; simp at hp
          rw [hp] at hac
          simp at hac
        | connectionError msg =>
          rw [hb] at hp
          simp [innerThenOuter] at hp
          rcases hp with hp | hp
          · rw [hp] at hac; simp at hac
          · exact ⟨env.httpExcText, env.outerDurSec, by rw [hp]⟩
        | httpStatusError st msg =>
          rw [hb] at hp
          simp [innerThenOuter] at hp
          rcases hp with hp | hp
          · rw [hp] at hac; simp at hac
          · exact ⟨env.httpExcText, env.outerDurSec, by rw [hp]⟩
        | otherError msg =>
          rw [hb] at hp
          simp [innerThenOuter] at hp
          rcases hp with hp | hp
          · rw [hp] at hac; simp at hac
          · exact ⟨env.httpExcText, env.outerDurSec, by rw [hp]⟩

/-- Witness for C2 (amended) at the unexpected-error environment. -/
theorem claim2_witness :
    ∃ s d,
      ({ entry := outerFallbackRecord "'int' object has no attribute 'get'" 1,
         alertChecked := false } : Persist).entry = outerFallbackRecord s d :=
  (claim2_failure_persistence envOuter).2 _
    (by simp [proxy_chat_completions, envOuter]) rfl

/-- C3: every RequestRecord persisted with a non-null error message has
performance score 0 and empty output text, on every persistence path. -/
theorem claim3_error_invariant (env : ProxyEnv) :
    ∀ p ∈ (proxy_chat_completions env).persists,
      p.entry.errorMessage ≠ none →
        p.entry.performanceScore = 0 ∧ p.entry.outputText = "" :=
  errorRecordsInvariant env

/-- Witness for C3 at the unexpected-error environment's fallback record. -/
theorem claim3_witness :
    ({ entry := outerFallbackRecord "'int' object has no attribute 'get'" 1,
       alertChecked := false } : Persist).entry.performanceScore = 0 ∧
    ({ entry := outerFallbackRecord "'int' object has no attribute 'get'" 1,
       alertChecked := false } : Persist).entry.outputText = "" :=
  claim3_error_invariant envOuter _
    (by simp [proxy_chat_completions, envOuter])
    (by simp [outerFallbackRecord])

/-! ### C4: the streaming relay -/

def info4 : StreamInfo :=
  { modelName := "m", inputText := "hi", temperature := none,
    maxTokens := none, promptTokens := 0 }

/-- C4 counterexample: a whitespace-only chunk received from the backend
(here the bare `\n\n` separator between events) is dropped by the
`if chunk.strip()` guard — it is neither forwarded to the caller nor
accumulated, so not every received chunk is relayed. -/
theorem claim4_counterexample :
    (stream_llm_response info4 ["Hello", "\n\n", "world"] none 1 0).yielded =
      ["Hello", "world"] ∧
    "\n\n" ∈ (["Hello", "\n\n", "world"] : List String) ∧
    "\n\n" ∉ (stream_llm_response info4 ["Hello", "\n\n", "world"] none 1 0).yielded := by
  refine ⟨?_, by decide, ?_⟩
  · simp +decide [stream_llm_response, pyHasContent, isPySpace]
  · simp +decide [stream_llm_response, pyHasContent, isPySpace]

/-- C4 (amended): on a normally ending stream, the chunks forwarded to the
caller are exactly the received chunks with truthy `strip()` — unmodified
and in arrival order, whitespace-only chunks dropped — and their
concatenation in receipt order equals the output text stored in the
persisted record. -/
theorem claim4_stream_relay (info : StreamInfo) (chunks : List String)
    (d t : ℚ) :
    (stream_llm_response info chunks none d t).yielded =
      chunks.filter pyHasContent ∧
    (stream_llm_response info chunks none d t).record.outputText =
      String.join ((stream_llm_response info chunks none d t).yielded) := by
  constructor <;> rfl

/-! ### C5: native-chat payload translation -/

def body5 : RequestBody :=
  { model := some "llama3", messages := [{ role := "user", content := "hi" }],
    stream := true, temperature := some (7 / 10), maxTokens := some 64,
    topP := some (9 / 10), frequencyPenalty := some 0, presencePenalty := some 0 }

/-- C5 counterexample: against an Ollama-shaped backend URL, a request with
temperature 0.7 is translated to a payload carrying no temperature at all —
the sampling parameters are not preserved. -/
theorem claim5_counterexample :
    usesOllamaShape "http://localhost:11434/api/chat" = true ∧
    body5.temperature = some (7 / 10) ∧
    payloadTemperature
      (outboundPayload "http://localhost:11434/api/chat" body5 true) = none := by
  have h : usesOllamaShape "http://localhost:11434/api/chat" = true := by decide
  exact ⟨h, rfl, by simp [outboundPayload, h, payloadTemperature]⟩

/-- C5 (amended): when the backend uses the native-chat (Ollama) wire shape
the translated payload holds exactly the model, the messages and the stream
flag, dropping every sampling parameter; the sampling parameters are
preserved only on the OpenAI-compatible pass-through branch. -/
theorem claim5_translation (url : String) (body : RequestBody) (s : Bool) :
    (usesOllamaShape url = true →
      outboundPayload url body s =
        .native (body.model.getD "unknown") body.messages s ∧
      payloadTemperature (outboundPayload url body s) = none ∧
      payloadMaxTokens (outboundPayload url body s) = none ∧
      payloadTopP (outboundPayload url body s) = none ∧
      payloadFrequencyPenalty (outboundPayload url body s) = none ∧
      payloadPresencePenalty (outboundPayload url body s) = none) ∧
    (usesOllamaShape url = false →
      outboundPayload url body s = .passthrough body ∧
      payloadTemperature (outboundPayload url body s) = body.temperature ∧
      payloadMaxTokens (outboundPayload url body s) = body.maxTokens ∧
      payloadTopP (outboundPayload url body s) = body.topP ∧
      payloadFrequencyPenalty (outboundPayload url body s) = body.frequencyPenalty ∧
      payloadPresencePenalty (outboundPayload url body s) = body.presencePenalty) := by
  constructor <;> intro h <;>
    simp [outboundPayload, h, payloadTemperature, payloadMaxTokens, payloadTopP,
      payloadFrequencyPenalty, payloadPresencePenalty]

/-- Witness for C5 (amended): the Ollama translation of `body5` carries no
temperature. -/
theorem claim5_witness :
    payloadTemperature
      (outboundPayload "http://localhost:11434/api/chat" body5 true) = none :=
  (((claim5_translation "http://localhost:11434/api/chat" body5 true).1
    (by decide)).2).1

/-! ### C6: token estimation on the non-streaming success path -/

def body6 : RequestBody :=
  { model := some "m",
    messages := [{ role := "user", content := "one two three" }],
    stream := false, temperature := none, maxTokens := none, topP := none,
    frequencyPenalty := none, presencePenalty := none }

def resp6 : ResponseData :=
  { choices := [{ messageContent := some "a b" }], usage := none }

/-- C6 counterexample: for a successful non-streaming call whose backend
response has no `usage`, the output text is `a b` (whitespace-token count
2), yet the persisted completion-token count stays null — not the estimate
2 — and the stored tokens-per-second is 0, not 2 over the 1-second
duration. -/
theorem claim6_counterexample :
    responseOutputText resp6 = "a b" ∧
    pySplitCount "a b" = 2 ∧
    (nonStreamingSuccessRecord body6 resp6 1).completionTokens = none ∧
    (nonStreamingSuccessRecord body6 resp6 1).completionTokens ≠ some 2 ∧
    (nonStreamingSuccessRecord body6 resp6 1).tokensPerSecond = some 0 ∧
    (nonStreamingSuccessRecord body6 resp6 1).tokensPerSecond ≠ some 2 := by
  refine ⟨rfl, by decide, rfl, by decide, ?_, ?_⟩
  · simp [nonStreamingSuccessRecord, body6, resp6]
  · simp [nonStreamingSuccessRecord, body6, resp6]

/-- C6 (amended): when the backend response omits usage counters, only the
prompt-token fallback uses whitespace counting (over every message
content); the persisted completion and total token counts stay null and the
stored tokens-per-second is 0 — the output text is never token-counted on
this path. -/
theorem claim6_token_fallback (body : RequestBody) (rd : ResponseData)
    (d : ℚ) (h : rd.usage = none) :
    (nonStreamingSuccessRecord body rd d).promptTokens =
      some ((promptTokenEstimate body.messages : Nat) : Int) ∧
    (nonStreamingSuccessRecord body rd d).completionTokens = none ∧
    (nonStreamingSuccessRecord body rd d).totalTokens = none ∧
    (nonStreamingSuccessRecord body rd d).tokensPerSecond = some 0 := by
  refine ⟨by simp [nonStreamingSuccessRecord, h], by simp [nonStreamingSuccessRecord, h],
    by simp [nonStreamingSuccessRecord, h], ?_⟩
  simp only [nonStreamingSuccessRecord, h]
  split <;> simp

/-- Witness for C6 (amended) at `body6`, `resp6`, duration 1 s. -/
theorem claim6_witness :
    (nonStreamingSuccessRecord body6 resp6 1).promptTokens =
      some ((promptTokenEstimate body6.messages : Nat) : Int) ∧
    (nonStreamingSuccessRecord body6 resp6 1).completionTokens = none ∧
    (nonStreamingSuccessRecord body6 resp6 1).totalTokens = none ∧
    (nonStreamingSuccessRecord body6 resp6 1).tokensPerSecond = some 0 :=
  claim6_token_fallback body6 resp6 1 rfl

/-! ### C9: latency percentiles in the analytics aggregation
(`get_performance_analytics`, main.py 406-411)

`sorted(latencies)[int(len(latencies) * p)] if latencies else 0`: Python's
`sorted` is an ascending stable sort, embedded as `List.insertionSort`;
a fault (IndexError) would be `none`. -/

def percentileValue (latencies : List Int) (p : ℚ) : Option Int :=
  if latencies.isEmpty then some 0
  else
    (List.insertionSort (· ≤ ·) latencies)[(pyInt ((latencies.length : ℚ) * p)).toNat]?

/-- C9: for every percentile fraction 0 ≤ p < 1 (in particular 0.95 and
0.99), the computation never faults: on an empty list it returns 0, and
otherwise it returns the element of the ascending-sorted list at index
floor(count * p), which coincides with that index clamped to count - 1. -/
theorem claim9_percentile (l : List Int) (p : ℚ) (h0 : 0 ≤ p) (h1 : p < 1) :
    (percentileValue l p).isSome = true ∧
    (l = [] → percentileValue l p = some 0) ∧
    (l ≠ [] → percentileValue l p =
      some ((List.insertionSort (· ≤ ·) l).getD
        (min (⌊(l.length : ℚ) * p⌋.toNat) (l.length - 1)) 0)) := by
  by_cases hl : l = []
  · subst hl
    exact ⟨rfl, fun _ => rfl, fun h => absurd rfl h⟩
  · have hne : l.isEmpty = false := by
      cases l with
      | nil => exact absurd rfl hl
      | cons a t => rfl
    have hn : 0 < l.length := List.length_pos.mpr hl
    have hnnq : (0 : ℚ) ≤ (l.length : ℚ) * p := mul_nonneg (by positivity) h0
    have hnn : 0 ≤ ⌊(l.length : ℚ) * p⌋ := Int.floor_nonneg.mpr hnnq
    have hlt : ⌊(l.length : ℚ) * p⌋ < (l.length : ℤ) := by
      apply Int.floor_lt.mpr
      push_cast
      calc (l.length : ℚ) * p < (l.length : ℚ) * 1 := by
            apply mul_lt_mul_of_pos_left h1
            exact_mod_cast hn
        _ = (l.length : ℚ) := mul_one _
    have hidx : ⌊(l.length : ℚ) * p⌋.toNat < l.length := by
      have h2 : ((⌊(l.length : ℚ) * p⌋.toNat : ℤ)) < (l.length : ℤ) := by
        rw [Int.toNat_of_nonneg hnn]
        exact hlt
      exact_mod_cast h2
    have hidx' : ⌊(l.length : ℚ) * p⌋.toNat <
        (List.insertionSort (· ≤ ·) l).length := by
      rw [List.length_insertionSort]
      exact hidx
    have hpy : pyInt ((l.length : ℚ) * p) = ⌊(l.length : ℚ) * p⌋ := by
      rw [pyInt, if_pos hnnq, ratFloor_eq]
    have heval : percentileValue l p =
        some ((List.insertionSort (· ≤ ·) l).get
          ⟨⌊(l.length : ℚ) * p⌋.toNat, hidx'⟩) := by
      rw [percentileValue, if_neg (by simp [hne]), hpy]
      rw [List.getElem?_eq_getElem hidx']
      rfl
    refine ⟨by rw [heval]; rfl, fun h => absurd h hl, fun _ => ?_⟩
    rw [heval]
    congr 1
    rw [Nat.min_eq_left (Nat.le_sub_one_of_lt hidx)]
    rw [List.getD_eq_getElem?_getD, List.getElem?_eq_getElem hidx']
    rfl

/-- Witness for C9 at the latency list `[7, 3, 5]` and the p95 fraction. -/
theorem claim9_witness :
    (percentileValue [7, 3, 5] (95 / 100)).isSome = true ∧
    (([7, 3, 5] : List Int) = [] → percentileValue [7, 3, 5] (95 / 100) = some 0) ∧
    (([7, 3, 5] : List Int) ≠ [] → percentileValue [7, 3, 5] (95 / 100) =
      some ((List.insertionSort (· ≤ ·) ([7, 3, 5] : List Int)).getD
        (min (⌊(([7, 3, 5] : List Int).length : ℚ) * (95 / 100)⌋.toNat)
          (([7, 3, 5] : List Int).length - 1)) 0)) :=
  claim9_percentile [7, 3, 5] (95 / 100) (by norm_num) (by norm_num)

end LLMLens
